import Mathlib

/-!
# Shallow embedding of the layered-material compositing core

This file embeds the per-fragment value semantics of the TSL node graphs
built by the layered-material repository (LayeredMaterial, LayerBlender,
MaskGenerator, NoiseGenerator, ColorBlender, NormalBlender, ScalarBlender,
TextureSampler, TriplanarSampler, TextureBombing, MaterialSampler,
MaterialExtractor, DefaultLayerFactory, EdgeWearCalculator) and proves the
specification claims about them.

Modelling conventions:
* Shader scalars are real numbers; TSL vectors are records of reals.
* A texture is its per-UV sampling function `Vec2 → Vec4`.
* A TSL `Node` denotes its value at the current fragment; fragment-global
  inputs (`uv()`, `normalWorld`, `positionWorld`, …) are fields of an `Env`
  record, and screen-space derivative operators (`dFdx`, `dFdy`) are
  environment-supplied oracles.
* JavaScript `x ?? d` is `Option.getD`; `x || d` (truthy defaulting, where
  `0` is falsy) gets its own helper; optional booleans read only for
  truthiness are modelled as `Bool` fields defaulting to `false`.
* `throw new Error(msg)` is `Except.error msg`.
-/

noncomputable section

namespace LayeredMaterialModel

/-- JavaScript `x || d` on an optional number: `undefined` and `0` both fall
back to the default. -/
def orFalsyR (x : Option ℝ) (d : ℝ) : ℝ :=
  match x with
  | none => d
  | some v => if v = 0 then d else v

/-- JavaScript `x || d` on an optional count: `undefined` and `0` both fall
back to the default. -/
def orFalsyN (x : Option ℕ) (d : ℕ) : ℕ :=
  match x with
  | none => d
  | some v => if v = 0 then d else v

/-- GLSL/TSL `fract`: fractional part in `[0,1)`. -/
def fractR (x : ℝ) : ℝ := Int.fract x

/-- GLSL/TSL `clamp(x, lo, hi) = min(max(x, lo), hi)`. -/
def clampR (x lo hi : ℝ) : ℝ := min (max x lo) hi

/-- TSL `saturate` clamps to `[0,1]`. -/
def saturateR (x : ℝ) : ℝ := clampR x 0 1

/-- TSL `mix(a, b, t) = a + (b - a) * t` (linear interpolation). -/
def mixR (a b t : ℝ) : ℝ := a + (b - a) * t

/-- GLSL/TSL `smoothstep(e0, e1, x)`: clamped Hermite interpolation. -/
def smoothstepR (e0 e1 x : ℝ) : ℝ :=
  let t := clampR ((x - e0) / (e1 - e0)) 0 1
  t * t * (3 - 2 * t)

structure Vec2 where
  x : ℝ
  y : ℝ

structure Vec3 where
  x : ℝ
  y : ℝ
  z : ℝ

structure Vec4 where
  x : ℝ
  y : ℝ
  z : ℝ
  w : ℝ

namespace Vec2

def add (a b : Vec2) : Vec2 := ⟨a.x + b.x, a.y + b.y⟩
def sub (a b : Vec2) : Vec2 := ⟨a.x - b.x, a.y - b.y⟩
def smul (a : Vec2) (s : ℝ) : Vec2 := ⟨a.x * s, a.y * s⟩
def divS (a : Vec2) (s : ℝ) : Vec2 := ⟨a.x / s, a.y / s⟩
def dot (a b : Vec2) : ℝ := a.x * b.x + a.y * b.y
def floorV (a : Vec2) : Vec2 := ⟨(⌊a.x⌋ : ℝ), (⌊a.y⌋ : ℝ)⟩
def fractV (a : Vec2) : Vec2 := ⟨fractR a.x, fractR a.y⟩
def mixV (a b : Vec2) (t : ℝ) : Vec2 := ⟨mixR a.x b.x t, mixR a.y b.y t⟩

end Vec2

namespace Vec3

def add (a b : Vec3) : Vec3 := ⟨a.x + b.x, a.y + b.y, a.z + b.z⟩
def sub (a b : Vec3) : Vec3 := ⟨a.x - b.x, a.y - b.y, a.z - b.z⟩
def mulV (a b : Vec3) : Vec3 := ⟨a.x * b.x, a.y * b.y, a.z * b.z⟩
def smul (a : Vec3) (s : ℝ) : Vec3 := ⟨a.x * s, a.y * s, a.z * s⟩
def divS (a : Vec3) (s : ℝ) : Vec3 := ⟨a.x / s, a.y / s, a.z / s⟩
def dot (a b : Vec3) : ℝ := a.x * b.x + a.y * b.y + a.z * b.z
def cross (a b : Vec3) : Vec3 :=
  ⟨a.y * b.z - a.z * b.y, a.z * b.x - a.x * b.z, a.x * b.y - a.y * b.x⟩
def absV (a : Vec3) : Vec3 := ⟨|a.x|, |a.y|, |a.z|⟩
def fractV (a : Vec3) : Vec3 := ⟨fractR a.x, fractR a.y, fractR a.z⟩
def mixV (a b : Vec3) (t : ℝ) : Vec3 := ⟨mixR a.x b.x t, mixR a.y b.y t, mixR a.z b.z t⟩
def xy (a : Vec3) : Vec2 := ⟨a.x, a.y⟩
def yz (a : Vec3) : Vec2 := ⟨a.y, a.z⟩
def zx (a : Vec3) : Vec2 := ⟨a.z, a.x⟩

/-- TSL `length`: Euclidean norm. -/
def length (a : Vec3) : ℝ := Real.sqrt (dot a a)

/-- TSL `normalize`: division by the Euclidean norm (the zero vector maps to
zero under Lean's division-by-zero convention). -/
def normalize (a : Vec3) : Vec3 := a.divS (length a)

end Vec3

namespace Vec4

def add (a b : Vec4) : Vec4 := ⟨a.x + b.x, a.y + b.y, a.z + b.z, a.w + b.w⟩
def smul (a : Vec4) (s : ℝ) : Vec4 := ⟨a.x * s, a.y * s, a.z * s, a.w * s⟩
def mixV (a b : Vec4) (t : ℝ) : Vec4 :=
  ⟨mixR a.x b.x t, mixR a.y b.y t, mixR a.z b.z t, mixR a.w b.w t⟩
def xyz (a : Vec4) : Vec3 := ⟨a.x, a.y, a.z⟩

end Vec4

/-- A texture is its per-UV sampling function. -/
def Texture : Type := Vec2 → Vec4

/-- Fragment-level environment: values of the TSL global input nodes and
oracles for the screen-space derivative operators. -/
structure Env where
  uv : Vec2
  normalWorld : Vec3
  positionWorld : Vec3
  normalLocal : Vec3
  positionLocal : Vec3
  tangentWorld : Vec3
  cameraPosition : Vec3
  dFdx3 : Vec3 → Vec3
  dFdy3 : Vec3 → Vec3
  dFdx1 : ℝ → ℝ
  dFdy1 : ℝ → ℝ

/-- A concrete environment used to instantiate closed statements. -/
def Env.default : Env where
  uv := ⟨0, 0⟩
  normalWorld := ⟨0, 1, 0⟩
  positionWorld := ⟨0, 0, 0⟩
  normalLocal := ⟨0, 0, 1⟩
  positionLocal := ⟨0, 0, 0⟩
  tangentWorld := ⟨1, 0, 0⟩
  cameraPosition := ⟨0, 0, 5⟩
  dFdx3 := fun _ => ⟨0, 0, 0⟩
  dFdy3 := fun _ => ⟨0, 0, 0⟩
  dFdx1 := fun _ => 0
  dFdy1 := fun _ => 0

/-! ## Noise engine (`NoiseGenerator`) -/

inductive NoiseType where
  | perlin
  | voronoi
  | fbm
deriving DecidableEq

/-- `NoiseConfig` interface: all fields optional in the source. -/
structure NoiseConfig where
  useNoise : Bool := false
  noiseType : Option NoiseType := none
  noiseScale : Option ℝ := none
  noiseOctaves : Option ℕ := none
  noisePersistence : Option ℝ := none
  noiseThreshold : Option ℝ := none

namespace NoiseGenerator

/-- `NoiseGenerator.hash2D`: pseudo-random `vec3` from a `vec2`. -/
def hash2D (p : Vec2) : Vec3 :=
  let p3 : Vec3 := Vec3.fractV ⟨p.x * 0.1031, p.y * 0.1030, p.x * 0.0973⟩
  let dp : ℝ := Vec3.dot p3 (Vec3.add ⟨p3.y, p3.z, p3.x⟩ ⟨33.33, 33.33, 33.33⟩)
  Vec3.fractV ⟨dp * (p3.x + p3.y), dp * (p3.y + p3.x), dp * (p3.z + p3.z)⟩

/-- `NoiseGenerator.perlinOctave`: bilinear interpolation of four corner hash
values with the quintic fade curve. -/
def perlinOctave (uv : Vec2) : ℝ :=
  let i := Vec2.floorV uv
  let f := Vec2.fractV uv
  let a := hash2D i
  let b := hash2D (Vec2.add i ⟨1, 0⟩)
  let c := hash2D (Vec2.add i ⟨0, 1⟩)
  let d := hash2D (Vec2.add i ⟨1, 1⟩)
  let ux := f.x * f.x * (f.x * (f.x * 6 - 15) + 10)
  let uy := f.y * f.y * (f.y * (f.y * 6 - 15) + 10)
  mixR (mixR a.x b.x ux) (mixR c.x d.x ux) uy

/-- State of the multi-octave accumulation loop after `k` iterations:
`(value, amplitude, frequency, maxValue)`.  The loop body is
`value += perlinOctave(uv*frequency)*amplitude; maxValue += amplitude;
amplitude *= persistence; frequency *= 2`. -/
def octaveAccum (uv : Vec2) (persistence : ℝ) : ℕ → ℝ × ℝ × ℝ × ℝ
  | 0 => (0, 1, 1, 0)
  | k + 1 =>
    let s := octaveAccum uv persistence k
    (s.1 + perlinOctave (uv.smul s.2.2.1) * s.2.1,
     s.2.1 * persistence,
     s.2.2.1 * 2,
     s.2.2.2 + s.2.1)

/-- `NoiseGenerator.perlinNoise`: single octave, or the normalized multi-octave
sum with fixed per-octave amplitude falloff `0.5`. -/
def perlinNoise (uv : Vec2) (octaves : ℕ) : ℝ :=
  if octaves = 1 then perlinOctave uv
  else
    let s := octaveAccum uv 0.5 octaves
    s.1 / s.2.2.2

/-- `NoiseGenerator.fbmNoise`: like multi-octave perlin but with the
caller-supplied persistence as the amplitude falloff. -/
def fbmNoise (uv : Vec2) (octaves : ℕ) (persistence : ℝ) : ℝ :=
  let s := octaveAccum uv persistence octaves
  s.1 / s.2.2.2

/-- Minimum squared distance over the 3×3 neighboring jittered cells, seeded
at `10.0` as in the source. -/
def voronoiMinDist (uv : Vec2) : ℝ :=
  let iuv := Vec2.floorV uv
  let fuv := Vec2.fractV uv
  let cell : ℤ → ℤ → ℝ := fun cx cy =>
    let neighbor : Vec2 := ⟨(cx : ℝ), (cy : ℝ)⟩
    let point := hash2D (Vec2.add iuv neighbor)
    let diff := Vec2.sub (Vec2.add neighbor ⟨point.x, point.y⟩) fuv
    Vec2.dot diff diff
  min (min (min (min (min (min (min (min (min (10 : ℝ)
    (cell (-1) (-1))) (cell 0 (-1))) (cell 1 (-1)))
    (cell (-1) 0)) (cell 0 0)) (cell 1 0))
    (cell (-1) 1)) (cell 0 1)) (cell 1 1)

/-- `NoiseGenerator.voronoiNoise`: `1 − sqrt(minDist)` (the `octaves`
parameter is declared but unused in the source). -/
def voronoiNoise (uv : Vec2) (_octaves : ℕ) : ℝ :=
  1 - Real.sqrt (voronoiMinDist uv)

/-- `NoiseGenerator.generate`: dispatch on noise type, then the optional
smooth-step threshold around `noiseThreshold ± 0.1`. -/
def generate (uv : Vec2) (config : NoiseConfig) : ℝ :=
  if config.useNoise = false then 1
  else
    let scale := orFalsyR config.noiseScale 1
    let scaledUV := uv.smul scale
    let noise :=
      match config.noiseType with
      | some NoiseType.voronoi => voronoiNoise scaledUV (orFalsyN config.noiseOctaves 1)
      | some NoiseType.fbm =>
          fbmNoise scaledUV (orFalsyN config.noiseOctaves 4) (orFalsyR config.noisePersistence 0.5)
      | _ => perlinNoise scaledUV (orFalsyN config.noiseOctaves 1)
    match config.noiseThreshold with
    | some threshold => smoothstepR (threshold - 0.1) (threshold + 0.1) noise
    | none => noise

end NoiseGenerator

/-! ## Blend-mode algebra (`ColorBlender`, `NormalBlender`, `ScalarBlender`) -/

inductive ColorBlendMode where
  | normal | multiply | screen | overlay | add | subtract | divide
  | darken | lighten | colorBurn | colorDodge | softLight | hardLight
deriving DecidableEq

/-- Normal-map blend modes; `pdWeighted` is the source's
`'partial_derivative'` mode. -/
inductive NormalBlendMode where
  | rnb | linear | whiteout | udn | pdWeighted | overlay
deriving DecidableEq

inductive ScalarBlendMode where
  | normal | min | max | multiply | average | overlay | add | subtract
deriving DecidableEq

namespace ColorBlender

/-- Per-component color overlay: `base < 0.5 ? 2·base·top : 1 − 2(1−base)(1−top)`
(`mix(screen, multiply, base < 0.5)` in the source). -/
def overlayC (base top : ℝ) : ℝ :=
  if base < 0.5 then base * top * 2 else 1 - (1 - base) * (1 - top) * 2

/-- Per-component soft light (Photoshop style). -/
def softLightC (base top : ℝ) : ℝ :=
  if top < 0.5 then base - (1 - top * 2) * base * (1 - base)
  else base + (top * 2 - 1) * (Real.sqrt base - base)

/-- Per-component hard light: overlay with the roles of base and top swapped
in the condition. -/
def hardLightC (base top : ℝ) : ℝ :=
  if top < 0.5 then base * top * 2 else 1 - (1 - base) * (1 - top) * 2

/-- The fully-blended-mode color value before the factor lerp. -/
def blendedColor (base top : Vec3) : ColorBlendMode → Vec3
  | .normal => top
  | .multiply => base.mulV top
  | .screen => ⟨1 - (1 - base.x) * (1 - top.x), 1 - (1 - base.y) * (1 - top.y),
      1 - (1 - base.z) * (1 - top.z)⟩
  | .overlay => ⟨overlayC base.x top.x, overlayC base.y top.y, overlayC base.z top.z⟩
  | .add => ⟨saturateR (base.x + top.x), saturateR (base.y + top.y), saturateR (base.z + top.z)⟩
  | .subtract => ⟨saturateR (base.x - top.x), saturateR (base.y - top.y),
      saturateR (base.z - top.z)⟩
  | .divide => ⟨saturateR (base.x / max top.x 0.001), saturateR (base.y / max top.y 0.001),
      saturateR (base.z / max top.z 0.001)⟩
  | .darken => ⟨min base.x top.x, min base.y top.y, min base.z top.z⟩
  | .lighten => ⟨max base.x top.x, max base.y top.y, max base.z top.z⟩
  | .colorBurn => ⟨saturateR (1 - (1 - base.x) / max top.x 0.001),
      saturateR (1 - (1 - base.y) / max top.y 0.001),
      saturateR (1 - (1 - base.z) / max top.z 0.001)⟩
  | .colorDodge => ⟨saturateR (base.x / max (1 - top.x) 0.001),
      saturateR (base.y / max (1 - top.y) 0.001),
      saturateR (base.z / max (1 - top.z) 0.001)⟩
  | .softLight => ⟨softLightC base.x top.x, softLightC base.y top.y, softLightC base.z top.z⟩
  | .hardLight => ⟨hardLightC base.x top.x, hardLightC base.y top.y, hardLightC base.z top.z⟩

/-- `ColorBlender.blend`: `normal` lerps directly; every other mode computes
the fully blended value and lerps from the base by the factor. -/
def blend (baseColor topColor : Vec3) (blendFactor : ℝ) (mode : ColorBlendMode) : Vec3 :=
  match mode with
  | .normal => baseColor.mixV topColor blendFactor
  | m => baseColor.mixV (blendedColor baseColor topColor m) blendFactor

end ColorBlender

namespace NormalBlender

/-- `linearBlend`: plain lerp. -/
def linearBlend (n1 n2 : Vec3) (blendF : ℝ) : Vec3 := n1.mixV n2 blendF

/-- `reorientedBlend` (RNB): `t = n1 + (0,0,1)`, `u = n2 · (−1,−1,1)`,
`r = t·(t·u)/t.z − u`, lerped from `n1` by the factor. -/
def reorientedBlend (n1 n2 : Vec3) (blendF : ℝ) : Vec3 :=
  let t := n1.add ⟨0, 0, 1⟩
  let u := n2.mulV ⟨-1, -1, 1⟩
  let r := (t.smul (Vec3.dot t u / t.z)).sub u
  n1.mixV r blendF

/-- `whiteoutBlend`: `n1 + n2 − (0,0,1)` lerped from `n1`. -/
def whiteoutBlend (n1 n2 : Vec3) (blendF : ℝ) : Vec3 :=
  n1.mixV ((n1.add n2).sub ⟨0, 0, 1⟩) blendF

/-- `udnBlend`: lerp the XY components, reconstruct Z from the unit-length
constraint. -/
def udnBlend (n1 n2 : Vec3) (blendF : ℝ) : Vec3 :=
  let bx := mixR n1.x n2.x blendF
  let by' := mixR n1.y n2.y blendF
  let xyDot := bx * bx + by' * by'
  ⟨bx, by', Real.sqrt (max (1 - xyDot) 0)⟩

/-- `partialDerivativeBlend` (source name `'partial_derivative'`): the blend
factor is attenuated by the relative screen-space derivative magnitude of the
base normal. -/
def pdBlend (env : Env) (n1 n2 : Vec3) (blendF : ℝ) : Vec3 :=
  let dN1 := (env.dFdx3 n1).add (env.dFdy3 n1)
  let dN2 := (env.dFdx3 n2).add (env.dFdy3 n2)
  let detail1 := Vec3.length dN1
  let detail2 := Vec3.length dN2
  let totalDetail := detail1 + detail2 + 0.001
  let weight := detail1 / totalDetail
  n1.mixV n2 (blendF * (1 - weight))

/-- `overlayBlend`: color-overlay formula on the XY components, Z
reconstructed from the unit-length constraint. -/
def overlayBlend (n1 n2 : Vec3) (blendF : ℝ) : Vec3 :=
  let ox := ColorBlender.overlayC n1.x n2.x
  let oy := ColorBlender.overlayC n1.y n2.y
  let bx := mixR n1.x ox blendF
  let by' := mixR n1.y oy blendF
  let xyDot := bx * bx + by' * by'
  ⟨bx, by', Real.sqrt (max (1 - xyDot) 0)⟩

/-- The switch body of `NormalBlender.blend`, before the final
renormalization. -/
def blendRaw (env : Env) (n1 n2 : Vec3) (blendF : ℝ) : NormalBlendMode → Vec3
  | .linear => linearBlend n1 n2 blendF
  | .whiteout => whiteoutBlend n1 n2 blendF
  | .udn => udnBlend n1 n2 blendF
  | .pdWeighted => pdBlend env n1 n2 blendF
  | .overlay => overlayBlend n1 n2 blendF
  | .rnb => reorientedBlend n1 n2 blendF

/-- `NormalBlender.blend`: mode dispatch followed by renormalization. -/
def blend (env : Env) (n1 n2 : Vec3) (blendF : ℝ) (mode : NormalBlendMode) : Vec3 :=
  Vec3.normalize (blendRaw env n1 n2 blendF mode)

end NormalBlender

namespace ScalarBlender

/-- Per-mode combined scalar value before the factor lerp (not used for the
`normal` mode, which returns the plain lerp). -/
def blendedValue (base top : ℝ) : ScalarBlendMode → ℝ
  | .normal => top
  | .min => min base top
  | .max => max base top
  | .multiply => base * top
  | .average => (base + top) * 0.5
  | .overlay => if base < 0.5 then base * top * 2 else 1 - (1 - base) * (1 - top) * 2
  | .add => base + top
  | .subtract => base - top

/-- `ScalarBlender.blend`: `normal` lerps directly; every other mode computes
the combined value, lerps from the base by the factor, and saturates. -/
def blend (baseValue topValue blendFactor : ℝ) (mode : ScalarBlendMode) : ℝ :=
  match mode with
  | .normal => mixR baseValue topValue blendFactor
  | m => saturateR (mixR baseValue (blendedValue baseValue topValue m) blendFactor)

end ScalarBlender

/-! ## Data model (`types.ts`) -/

/-- Per-fragment value of a resolved layer (`LayerData`): the `height` field
is optional in the source interface. -/
structure LayerData where
  color : Vec3
  normal : Vec3
  roughness : ℝ
  metalness : ℝ
  ao : ℝ
  height : Option ℝ := none

structure ColorRGB where
  r : ℝ
  g : ℝ
  b : ℝ

inductive MaskChannel where
  | r | g | b | a | x | y | z | w
deriving DecidableEq

/-- Select a channel of a `vec4` sample. -/
def channelOf (v : Vec4) : MaskChannel → ℝ
  | .r | .x => v.x
  | .g | .y => v.y
  | .b | .z => v.z
  | .a | .w => v.w

/-- The `map.color` entry can be a texture or a solid `Vector3` color. -/
inductive ColorInput where
  | tex (t : Texture)
  | solid (v : Vec3)

/-- The texture map bundle of a layer. -/
structure MapBundle where
  color : Option ColorInput := none
  normal : Option Texture := none
  roughness : Option Texture := none
  metalness : Option Texture := none
  ao : Option Texture := none
  height : Option Texture := none
  arm : Option Texture := none

inductive WearPattern where
  | curvature | ambientOcclusion | worldSpace | combined
deriving DecidableEq

inductive CurvatureMethod where
  | normal | position | simplified | world | laplace
deriving DecidableEq

structure EdgeWearConfig where
  enable : Bool := false
  intensity : Option ℝ := none
  threshold : Option ℝ := none
  falloff : Option ℝ := none
  sharpness : Option ℝ := none
  useNoise : Bool := false
  color : Option ColorRGB := none
  affectsMaterial : Bool := false
  roughness : Option ℝ := none
  metalness : Option ℝ := none
  wearPattern : Option WearPattern := none
  curvatureMethod : Option CurvatureMethod := none

structure TriplanarConfig where
  enable : Bool := false
  useWorldPosition : Option Bool := none

structure BombingConfig where
  enable : Bool := false
  blend : Option ℝ := none

/-- `LayerConfig.mask`: the mask options of a layer; shares the noise fields
with `NoiseConfig` (the source interface extends it). -/
structure MaskConfig extends NoiseConfig where
  map : Option Texture := none
  channel : Option MaskChannel := none
  invert : Bool := false
  useSlope : Bool := false
  slopeMin : Option ℝ := none
  slopeMax : Option ℝ := none
  useHeight : Bool := false
  heightMin : Option ℝ := none
  heightMax : Option ℝ := none
  opacityMultiplier : Option ℝ := none
  constantOpacity : Option ℝ := none

structure HeightBlendConfig where
  enable : Bool := false
  strength : Option ℝ := none
  sharpness : Option ℝ := none

/-- Parallax method tags: the repository's two `ParallaxConfig` declarations
are merged (`'pom' | 'web-optimized' | 'simple'` and
`'pom' | 'steep' | 'simple'`); the live mapper dispatches on `pom` and
`steep` and treats everything else as `simple`. -/
inductive ParallaxMethod where
  | pom | steep | webOptimized | simple
deriving DecidableEq

inductive ParallaxQuality where
  | low | medium | high
deriving DecidableEq

structure ParallaxConfig where
  enable : Bool := false
  scale : Option ℝ := none
  steps : Option ℕ := none
  maxOffset : Option ℝ := none
  method : Option ParallaxMethod := none
  quality : Option ParallaxQuality := none

structure BlendModeConfig where
  color : Option ColorBlendMode := none
  normal : Option NormalBlendMode := none
  roughness : Option ScalarBlendMode := none
  metalness : Option ScalarBlendMode := none
  ao : Option ScalarBlendMode := none

structure MaterialTransform where
  overrideScale : Bool := false
  extractTextures : Bool := false
  respectMaterialSettings : Bool := false

/-- A pre-built node material used as a layer input (`NodeMaterialInput`).
Optional shader-node fields hold fragment values; `'prop' in material`
membership tests are modelled as presence of the corresponding optional
field. -/
structure MaterialInput where
  colorNode : Option Vec3 := none
  normalNode : Option Vec3 := none
  roughnessNode : Option ℝ := none
  roughness : Option ℝ := none
  metalnessNode : Option ℝ := none
  metalness : Option ℝ := none
  aoNode : Option ℝ := none
  aoMap : Option Texture := none
  map : Option Texture := none
  normalMap : Option Texture := none
  roughnessMap : Option Texture := none
  metalnessMap : Option Texture := none
  displacementMap : Option Texture := none

structure LayerConfig where
  name : Option String := none
  materialInput : Option MaterialInput := none
  map : Option MapBundle := none
  color : Option Vec3 := none
  roughness : Option ℝ := none
  metalness : Option ℝ := none
  scale : Option ℝ := none
  materialTransform : Option MaterialTransform := none
  colorTint : Option ColorRGB := none
  edgeWear : Option EdgeWearConfig := none
  triplanar : Option TriplanarConfig := none
  textureBombing : Option BombingConfig := none
  mask : Option MaskConfig := none
  heightBlend : Option HeightBlendConfig := none
  parallax : Option ParallaxConfig := none
  blendMode : Option BlendModeConfig := none

/-! ## Edge wear (`EdgeWearCalculator`) -/

namespace EdgeWearCalculator

/-- `EdgeWearCalculator.hash2D` has the same body as
`NoiseGenerator.hash2D`. -/
def hash2D : Vec2 → Vec3 := NoiseGenerator.hash2D

/-- Simplified FBM used for wear variation: `hash2D(uv).x * 0.5 + 0.5`. -/
def fbmNoise (uv : Vec2) (_octaves : ℕ) (_persistence : ℝ) : ℝ :=
  (hash2D uv).x * 0.5 + 0.5

def normalDerivativeCurvature (env : Env) (normal : Vec3) : ℝ :=
  let dX := env.dFdx3 normal
  let dY := env.dFdy3 normal
  Real.sqrt (Vec3.dot dX dX + Vec3.dot dY dY)

def positionCurvature (env : Env) : ℝ :=
  let d2pdx2 := env.dFdx3 (env.dFdx3 env.positionWorld)
  let d2pdy2 := env.dFdy3 (env.dFdy3 env.positionWorld)
  Real.sqrt (Vec3.dot d2pdx2 d2pdx2 + Vec3.dot d2pdy2 d2pdy2) * 0.1

def simplifiedCurvature (env : Env) (normal : Vec3) : ℝ :=
  let dZdx := env.dFdx1 normal.z
  let dZdy := env.dFdy1 normal.z
  Real.sqrt (dZdx * dZdx + dZdy * dZdy) * 2

def worldNormalCurvature (env : Env) : ℝ :=
  let dX := env.dFdx3 env.normalWorld
  let dY := env.dFdy3 env.normalWorld
  Real.sqrt (Vec3.dot dX dX + Vec3.dot dY dY)

def laplaceCurvature (env : Env) : ℝ :=
  let dxx := env.dFdx3 (env.dFdx3 env.positionWorld)
  let dyy := env.dFdy3 (env.dFdy3 env.positionWorld)
  Real.sqrt (Vec3.dot dxx dxx + Vec3.dot dyy dyy) * 0.05

def curvatureWear (env : Env) (normal : Vec3) : CurvatureMethod → ℝ
  | .position => positionCurvature env
  | .simplified => simplifiedCurvature env normal
  | .world => worldNormalCurvature env
  | .laplace => laplaceCurvature env
  | .normal => normalDerivativeCurvature env normal

def ambientOcclusionWear (env : Env) : ℝ :=
  (1 - Vec3.dot env.normalWorld ⟨0, 1, 0⟩) ^ (2 : ℝ)

def worldSpaceWear (env : Env) : ℝ :=
  let upWear := 1 - Vec3.dot env.normalWorld ⟨0, 1, 0⟩
  let windWear := |Vec3.dot env.normalWorld ⟨1, 0, 0⟩|
  let heightWear := saturateR (env.positionWorld.y * 0.1)
  upWear * 0.5 + windWear * 0.3 + heightWear * 0.2

def combinedWear (env : Env) (normal : Vec3) (method : CurvatureMethod) : ℝ :=
  curvatureWear env normal method * 0.5 + ambientOcclusionWear env * 0.3 +
    worldSpaceWear env * 0.2

def addNoiseVariation (env : Env) (mask : ℝ) : ℝ :=
  let noiseUV : Vec2 := ⟨env.positionWorld.x * 10, env.positionWorld.z * 10⟩
  let noise := fbmNoise noiseUV 3 0.5
  mask * (noise * 0.4 + 0.6)

/-- `EdgeWearCalculator.calculateWearMask`: pattern dispatch, threshold /
falloff smooth-step, sharpness power curve, optional noise variation,
saturate. -/
def calculateWearMask (env : Env) (normal : Vec3) (config : EdgeWearConfig) : ℝ :=
  let intensity := config.intensity.getD 1
  let threshold := config.threshold.getD 0.1
  let falloff := config.falloff.getD 0.3
  let sharpness := config.sharpness.getD 2
  let wearPattern := config.wearPattern.getD WearPattern.curvature
  let curvatureMethod := config.curvatureMethod.getD CurvatureMethod.normal
  let mask :=
    match wearPattern with
    | .ambientOcclusion => ambientOcclusionWear env
    | .worldSpace => worldSpaceWear env
    | .combined => combinedWear env normal curvatureMethod
    | .curvature => curvatureWear env normal curvatureMethod
  let mask := smoothstepR threshold (threshold + falloff) (mask * intensity)
  let mask := mask ^ sharpness
  let mask := if config.useNoise then addNoiseVariation env mask else mask
  saturateR mask

/-- `EdgeWearCalculator.apply`: lerp the color toward the exposed color by
the wear mask; when `affectsMaterial` is set also lerp roughness and
metalness toward the worn-edge targets. -/
def apply (env : Env) (data : LayerData) (config : EdgeWearConfig) : LayerData :=
  let mask := calculateWearMask env data.normal config
  let exposedColor : Vec3 :=
    match config.color with
    | some c => ⟨c.r, c.g, c.b⟩
    | none => ⟨0.7, 0.6, 0.5⟩
  let wornColor := data.color.mixV exposedColor mask
  if config.affectsMaterial then
    { data with
        color := wornColor
        roughness := mixR data.roughness (orFalsyR config.roughness 0.3) mask
        metalness := mixR data.metalness (orFalsyR config.metalness 0.8) mask }
  else
    { data with color := wornColor }

end EdgeWearCalculator

/-! ## Texture bombing (`TextureBombing`) -/

namespace TextureBombing

/-- `TextureBombing.hash2D` has the same body as `NoiseGenerator.hash2D`. -/
def hash2D : Vec2 → Vec3 := NoiseGenerator.hash2D

/-- `TextureBombing.transformUV`: per-cell random rotation around the cell
center and sub-pixel offset, then re-tiling by the integer cell. -/
def transformUV (fractionalUV integerUV : Vec2) (hash : Vec3)
    (useRotation useOffset : Bool) : Vec2 :=
  let uv := fractionalUV
  let offset : Vec2 :=
    if useOffset then ⟨(hash.x * 2 - 1) * 0.5, (hash.y * 2 - 1) * 0.5⟩ else ⟨0, 0⟩
  let uv :=
    if useRotation then
      let angle := hash.z * 6.28318530718
      let cosA := Real.cos angle
      let sinA := Real.sin angle
      let cX := uv.x - 0.5
      let cY := uv.y - 0.5
      (⟨cX * cosA - cY * sinA, cX * sinA + cY * cosA⟩ : Vec2).add ⟨0.5, 0.5⟩
    else uv
  (uv.add offset).add integerUV

/-- `TextureBombing.sample`: blend two adjacent per-cell transformed samples
by a smooth-step of the fractional U coordinate.  All call sites in the
repository omit the optional config, so rotation and offset are enabled. -/
def sample (map : Texture) (uvCoords : Vec2) (blendAmount : ℝ) : Vec4 :=
  let iuv := Vec2.floorV uvCoords
  let fuv := Vec2.fractV uvCoords
  let hash := hash2D iuv
  let uv1 := transformUV fuv iuv hash true true
  let sample1 := map uv1
  let hash2 := hash2D (iuv.add ⟨1, 0⟩)
  let uv2 := transformUV fuv (iuv.add ⟨1, 0⟩) hash2 true true
  let sample2 := map uv2
  let blendFactor := smoothstepR 0.3 0.7 fuv.x * blendAmount
  sample1.mixV sample2 blendFactor

end TextureBombing

/-! ## Mask generator (`MaskGenerator`) -/

namespace MaskGenerator

/-- The accumulated mask of `MaskGenerator.generate` before the optional
inversion and the final saturate: texture channel, slope smooth-step,
world-height smooth-step, and noise gate multiplied in order. -/
def accum (env : Env) (m : MaskConfig) : ℝ :=
  let mask : ℝ := 1
  let mask :=
    match m.map with
    | some t => channelOf (t env.uv) (m.channel.getD MaskChannel.r)
    | none => mask
  let mask :=
    if m.useSlope then
      mask * smoothstepR (orFalsyR m.slopeMin 0) (orFalsyR m.slopeMax 1)
        (Vec3.dot env.normalWorld ⟨0, 1, 0⟩)
    else mask
  let mask :=
    if m.useHeight then
      mask * smoothstepR (orFalsyR m.heightMin 0) (orFalsyR m.heightMax 10)
        env.positionWorld.y
    else mask
  if m.useNoise then mask * NoiseGenerator.generate env.uv m.toNoiseConfig else mask

/-- `MaskGenerator.generate`: `1` when no mask is configured, otherwise the
accumulated mask, optionally inverted, saturated to `[0,1]`. -/
def generate (env : Env) (layer : LayerConfig) : ℝ :=
  match layer.mask with
  | none => 1
  | some m => saturateR (if m.invert then 1 - accum env m else accum env m)

end MaskGenerator

/-! ## Parallax mapping (`ParallaxMapper`)

The live mapper: `apply(uv, heightMap: Texture, config, scale = 1)` samples
the height texture itself and returns offset UVs (the legacy 3-parameter
node-based variant is marked deprecated in the source and unused). -/

namespace ParallaxMapper

/-- `getViewDirTangentSpace`: world view direction pushed through the
transposed TBN basis (`mat3(t, b, n)` has the basis vectors as columns, so
its transpose maps `v` to the dot products with the basis). -/
def getViewDirTangentSpace (env : Env) : Vec3 :=
  let viewDirWorld := Vec3.normalize (env.cameraPosition.sub env.positionWorld)
  let normal := Vec3.normalize env.normalLocal
  let tangent := Vec3.normalize env.tangentWorld
  let bitangent := normal.cross tangent
  Vec3.normalize
    ⟨Vec3.dot tangent viewDirWorld, Vec3.dot bitangent viewDirWorld,
      Vec3.dot normal viewDirWorld⟩

/-- `simpleParallax`: single offset `(1 − height)·scale/viewZ` from the
height sampled at the incoming UV (the trailing `scale` argument is declared
but unused in the source). -/
def simpleParallax (env : Env) (uv : Vec2) (heightMap : Texture)
    (config : ParallaxConfig) (_scale : ℝ) : Vec2 :=
  let parallaxScale := orFalsyR config.scale 0.05
  let viewDir := getViewDirTangentSpace env
  let height := (heightMap uv).x
  let viewZ := max viewDir.z 0.1
  let heightOffset := 1 - height
  let parallaxOffset := (viewDir.xy).smul (heightOffset * parallaxScale) |>.divS viewZ
  uv.sub parallaxOffset

/-- The steep-parallax march: subtract the per-step UV delta `k` times (the
loop samples the height each step but never branches on it). -/
def marchUV (uv : Vec2) (delta : Vec2) : ℕ → Vec2
  | 0 => uv
  | k + 1 => (marchUV uv delta k).sub delta

/-- `steepParallax`: fixed-step ray march; the unrolled loop only
accumulates the UV offset, so the result is the start UV shifted by
`steps` deltas. -/
def steepParallax (env : Env) (uv : Vec2) (_heightMap : Texture)
    (config : ParallaxConfig) (_scale : ℝ) : Vec2 :=
  let steps := orFalsyN config.steps 8
  let parallaxScale := orFalsyR config.scale 0.05
  let viewDir := getViewDirTangentSpace env
  let viewZ := max |viewDir.z| 0.001
  let numSteps : ℝ := (steps : ℝ)
  let deltaTexCoords := (((viewDir.xy).divS viewZ).smul parallaxScale).divS numSteps
  marchUV uv deltaTexCoords steps

/-- Ray-march state of the occlusion-mapped variant: previous and current
UVs, layer depths, and sampled heights. -/
structure PomState where
  prevTexCoords : Vec2
  prevLayerDepth : ℝ
  prevDepthMapValue : ℝ
  currentTexCoords : Vec2
  currentLayerDepth : ℝ
  currentDepthMapValue : ℝ

/-- One iteration of the occlusion-mapping loop body. -/
def pomStep (heightMap : Texture) (delta : Vec2) (layerDepth : ℝ)
    (s : PomState) : PomState :=
  let currentTexCoords := s.currentTexCoords.sub delta
  { prevTexCoords := s.currentTexCoords
    prevLayerDepth := s.currentLayerDepth
    prevDepthMapValue := s.currentDepthMapValue
    currentTexCoords := currentTexCoords
    currentLayerDepth := s.currentLayerDepth + layerDepth
    currentDepthMapValue := (heightMap currentTexCoords).x }

def pomLoop (heightMap : Texture) (delta : Vec2) (layerDepth : ℝ)
    (init : PomState) : ℕ → PomState
  | 0 => init
  | k + 1 => pomStep heightMap delta layerDepth (pomLoop heightMap delta layerDepth init k)

/-- `parallaxOcclusionMapping`: full march plus the final linear
interpolation between the last two samples at the depth-vs-height
crossing. -/
def parallaxOcclusionMapping (env : Env) (uv : Vec2) (heightMap : Texture)
    (config : ParallaxConfig) (_scale : ℝ) : Vec2 :=
  let steps := orFalsyN config.steps 16
  let parallaxScale := orFalsyR config.scale 0.1
  let viewDir := getViewDirTangentSpace env
  let viewZ := max |viewDir.z| 0.001
  let numSteps : ℝ := (steps : ℝ)
  let layerDepth := 1 / numSteps
  let deltaTexCoords := (((viewDir.xy).divS viewZ).smul parallaxScale).divS numSteps
  let initHeight := (heightMap uv).x
  let init : PomState := ⟨uv, 0, initHeight, uv, 0, initHeight⟩
  let s := pomLoop heightMap deltaTexCoords layerDepth init steps
  let afterDepth := s.currentDepthMapValue - s.currentLayerDepth
  let beforeDepth := s.prevDepthMapValue - (s.prevLayerDepth - layerDepth)
  let weight := afterDepth / (afterDepth - beforeDepth)
  Vec2.mixV s.currentTexCoords s.prevTexCoords weight

/-- `ParallaxMapper.apply`: no-op when disabled, otherwise method
dispatch (default `simple`). -/
def apply (env : Env) (uv : Vec2) (heightMap : Texture) (config : ParallaxConfig)
    (scale : ℝ) : Vec2 :=
  if config.enable = false then uv
  else
    match config.method with
    | some ParallaxMethod.pom => parallaxOcclusionMapping env uv heightMap config scale
    | some ParallaxMethod.steep => steepParallax env uv heightMap config scale
    | _ => simpleParallax env uv heightMap config scale

end ParallaxMapper

/-! ## Planar texture sampling (`TextureSampler`) -/

/-- Result record of `samplePBRProperties` / `sampleTriplanarPBR`. -/
structure PBRSample where
  roughness : ℝ
  metalness : ℝ
  ao : ℝ

namespace TextureSampler

def sampleColor (colorInput : Option ColorInput) (uvCoords : Vec2)
    (useBombing : Bool) (bombingBlend : ℝ) : Vec3 :=
  match colorInput with
  | none => ⟨1, 1, 1⟩
  | some (.tex t) =>
      if useBombing then (TextureBombing.sample t uvCoords bombingBlend).xyz
      else (t uvCoords).xyz
  | some (.solid v) => v

def sampleNormal (normalMap : Option Texture) (uvCoords : Vec2)
    (useBombing : Bool) (bombingBlend : ℝ) : Vec3 :=
  match normalMap with
  | none => ⟨0, 0, 1⟩
  | some t =>
      let s :=
        if useBombing then (TextureBombing.sample t uvCoords bombingBlend).xyz
        else (t uvCoords).xyz
      (s.smul 2).sub ⟨1, 1, 1⟩

def sampleHeight (layer : LayerConfig) (uvCoords : Vec2) : ℝ :=
  match layer.map.bind (·.height) with
  | none => 0.5
  | some t =>
      let useBombing := (layer.textureBombing.map (·.enable)).getD false
      let bombingBlend := (layer.textureBombing.bind (·.blend)).getD 0.5
      if useBombing then (TextureBombing.sample t uvCoords bombingBlend).x
      else (t uvCoords).x

def sampleScalarMap (map : Option Texture) (uvCoords : Vec2) (useBombing : Bool)
    (bombingBlend : ℝ) (fallback : ℝ) : ℝ :=
  match map with
  | none => fallback
  | some t =>
      if useBombing then (TextureBombing.sample t uvCoords bombingBlend).x
      else (t uvCoords).x

/-- `TextureSampler.samplePBRProperties`: an ARM packed map, if present,
wins (`x→ao, y→roughness, z→metalness`); otherwise the separate maps are
sampled with the layer's scalar fallbacks. -/
def samplePBRProperties (layer : LayerConfig) (uvCoords : Vec2) (useBombing : Bool)
    (bombingBlend : ℝ) : PBRSample :=
  match layer.map.bind (·.arm) with
  | some t =>
      let armSample :=
        if useBombing then TextureBombing.sample t uvCoords bombingBlend
        else t uvCoords
      ⟨armSample.y, armSample.z, armSample.x⟩
  | none =>
      let ao := sampleScalarMap (layer.map.bind (·.ao)) uvCoords useBombing bombingBlend 1
      let roughness := sampleScalarMap (layer.map.bind (·.roughness)) uvCoords useBombing
        bombingBlend (layer.roughness.getD 0.5)
      let metalness := sampleScalarMap (layer.map.bind (·.metalness)) uvCoords useBombing
        bombingBlend (layer.metalness.getD 0)
      ⟨roughness, metalness, ao⟩

/-- `TextureSampler.sample`.  When `layer.map` is absent the source throws a
descriptive `Error`; otherwise UVs are scaled, offset by the parallax mapper
when `parallax.enable` is set and a height map exists (before any other
channel is sampled), and every channel is resolved with its fallback. -/
def sample (env : Env) (layer : LayerConfig) : Except String LayerData :=
  match layer.map with
  | none => .error "TextureSampler requires layer.map to be defined"
  | some mb =>
    let uvCoords := env.uv.smul (layer.scale.getD 1)
    let uvCoords :=
      match layer.parallax, mb.height with
      | some pc, some h =>
          if pc.enable then ParallaxMapper.apply env uvCoords h pc (layer.scale.getD 1)
          else uvCoords
      | _, _ => uvCoords
    let height := sampleHeight layer uvCoords
    let useBombing := (layer.textureBombing.map (·.enable)).getD false
    let bombingBlend := (layer.textureBombing.bind (·.blend)).getD 0.5
    let color := sampleColor mb.color uvCoords useBombing bombingBlend
    let color :=
      match layer.colorTint with
      | some t => color.mulV ⟨t.r, t.g, t.b⟩
      | none => color
    let normal := sampleNormal mb.normal uvCoords useBombing bombingBlend
    let pbr := samplePBRProperties layer uvCoords useBombing bombingBlend
    let data : LayerData :=
      ⟨color, normal, pbr.roughness, pbr.metalness, pbr.ao, some height⟩
    match layer.edgeWear with
    | some ew => if ew.enable then .ok (EdgeWearCalculator.apply env data ew) else .ok data
    | none => .ok data

end TextureSampler

/-! ## Triplanar sampling (`TriplanarSampler`) -/

namespace TriplanarSampler

/-- `TriplanarSampler.calculateBlendWeights`: L2-normalized absolute normal
divided by its epsilon-padded component sum. -/
def calculateBlendWeights (normal : Vec3) : Vec3 :=
  let nAbs := Vec3.normalize (Vec3.absV normal)
  let sum := nAbs.x + nAbs.y + nAbs.z + 1e-6
  nAbs.divS sum

def unpackNormal (s : Vec3) : Vec3 := (s.smul 2).sub ⟨1, 1, 1⟩

def sampleTriplanarColor (colorInput : Option ColorInput) (uvX uvY uvZ : Vec2)
    (blend : Vec3) (useBombing : Bool) (bombingBlend : ℝ) : Vec3 :=
  match colorInput with
  | none => ⟨1, 1, 1⟩
  | some (.solid v) => v
  | some (.tex t) =>
      let sX := if useBombing then TextureBombing.sample t uvX bombingBlend else t uvX
      let sY := if useBombing then TextureBombing.sample t uvY bombingBlend else t uvY
      let sZ := if useBombing then TextureBombing.sample t uvZ bombingBlend else t uvZ
      (((sX.smul blend.x).add (sY.smul blend.y)).add (sZ.smul blend.z)).xyz

def sampleTriplanarNormal (normalMap : Option Texture) (uvX uvY uvZ : Vec2)
    (blend : Vec3) (useBombing : Bool) (bombingBlend : ℝ) : Vec3 :=
  match normalMap with
  | none => ⟨0, 0, 1⟩
  | some t =>
      let sX := unpackNormal
        (if useBombing then (TextureBombing.sample t uvX bombingBlend).xyz else (t uvX).xyz)
      let sY := unpackNormal
        (if useBombing then (TextureBombing.sample t uvY bombingBlend).xyz else (t uvY).xyz)
      let sZ := unpackNormal
        (if useBombing then (TextureBombing.sample t uvZ bombingBlend).xyz else (t uvZ).xyz)
      let worldNX : Vec3 := ⟨sX.z, sX.x, sX.y⟩
      let worldNY : Vec3 := ⟨sY.x, sY.z, sY.y⟩
      let worldNZ : Vec3 := ⟨sZ.x, sZ.y, sZ.z⟩
      Vec3.normalize
        (((worldNX.smul blend.x).add (worldNY.smul blend.y)).add (worldNZ.smul blend.z))

def sampleTriplanarScalar (map : Option Texture) (uvX uvY uvZ : Vec2) (blend : Vec3)
    (fallback : ℝ) (useBombing : Bool) (bombingBlend : ℝ) : ℝ :=
  match map with
  | none => fallback
  | some t =>
      let sX := (if useBombing then TextureBombing.sample t uvX bombingBlend else t uvX).x
      let sY := (if useBombing then TextureBombing.sample t uvY bombingBlend else t uvY).x
      let sZ := (if useBombing then TextureBombing.sample t uvZ bombingBlend else t uvZ).x
      sX * blend.x + sY * blend.y + sZ * blend.z

/-- `TriplanarSampler.sampleTriplanarPBR`: an ARM packed map, if present,
wins; the three projected ARM samples are blended and unpacked
(`x→ao, y→roughness, z→metalness`). -/
def sampleTriplanarPBR (layer : LayerConfig) (uvX uvY uvZ : Vec2) (blend : Vec3)
    (useBombing : Bool) (bombingBlend : ℝ) : PBRSample :=
  match layer.map.bind (·.arm) with
  | some t =>
      let armX := if useBombing then TextureBombing.sample t uvX bombingBlend else t uvX
      let armY := if useBombing then TextureBombing.sample t uvY bombingBlend else t uvY
      let armZ := if useBombing then TextureBombing.sample t uvZ bombingBlend else t uvZ
      let arm := ((armX.smul blend.x).add (armY.smul blend.y)).add (armZ.smul blend.z)
      ⟨arm.y, arm.z, arm.x⟩
  | none =>
      ⟨sampleTriplanarScalar (layer.map.bind (·.roughness)) uvX uvY uvZ blend
          (layer.roughness.getD 0.5) useBombing bombingBlend,
        sampleTriplanarScalar (layer.map.bind (·.metalness)) uvX uvY uvZ blend
          (layer.metalness.getD 0) useBombing bombingBlend,
        sampleTriplanarScalar (layer.map.bind (·.ao)) uvX uvY uvZ blend
          1 useBombing bombingBlend⟩

/-- `TriplanarSampler.sample`: throws unless `triplanar.enable` is set;
projects the three planes from world or local position and blends by the
normal-derived weights. -/
def sample (env : Env) (layer : LayerConfig) : Except String LayerData :=
  match layer.triplanar with
  | some tc =>
      if tc.enable then
        let useWorldSpace := tc.useWorldPosition.getD true
        let projPos := if useWorldSpace then env.positionWorld else env.positionLocal
        let projNorm := if useWorldSpace then env.normalWorld else env.normalLocal
        let scale := orFalsyR layer.scale 1
        let uvX := (projPos.yz).smul scale
        let uvY := (projPos.zx).smul scale
        let uvZ := (projPos.xy).smul scale
        let blendWeights := calculateBlendWeights projNorm
        let useBombing := (layer.textureBombing.map (·.enable)).getD false
        let bombingBlend := (layer.textureBombing.bind (·.blend)).getD 0.5
        let color := sampleTriplanarColor (layer.map.bind (·.color)) uvX uvY uvZ
          blendWeights useBombing bombingBlend
        let normal := sampleTriplanarNormal (layer.map.bind (·.normal)) uvX uvY uvZ
          blendWeights useBombing bombingBlend
        let pbr := sampleTriplanarPBR layer uvX uvY uvZ blendWeights useBombing bombingBlend
        let height := sampleTriplanarScalar (layer.map.bind (·.height)) uvX uvY uvZ
          blendWeights 0.5 useBombing bombingBlend
        let data : LayerData :=
          ⟨color, normal, pbr.roughness, pbr.metalness, pbr.ao, some height⟩
        match layer.edgeWear with
        | some ew => if ew.enable then .ok (EdgeWearCalculator.apply env data ew) else .ok data
        | none => .ok data
      else .error "TriplanarSampler requires triplanar.enable to be true"
  | none => .error "TriplanarSampler requires triplanar.enable to be true"

end TriplanarSampler

/-! ## Default layers (`DefaultLayerFactory`) -/

namespace DefaultLayerFactory

def createColor (layer : LayerConfig) : Vec3 :=
  match layer.color with
  | some v => v
  | none =>
      match layer.map.bind (·.color) with
      | some (.solid v) => v
      | _ => ⟨0.8, 0.8, 0.8⟩

/-- `DefaultLayerFactory.create`: solid color (tinted), flat normal, scalar
fallbacks, height `0.5`, optional edge wear. -/
def create (env : Env) (layer : LayerConfig) : LayerData :=
  let color := createColor layer
  let color :=
    match layer.colorTint with
    | some t => color.mulV ⟨t.r, t.g, t.b⟩
    | none => color
  let data : LayerData :=
    ⟨color, ⟨0, 0, 1⟩, layer.roughness.getD 0.5, layer.metalness.getD 0, 1, some 0.5⟩
  match layer.edgeWear with
  | some ew => if ew.enable then EdgeWearCalculator.apply env data ew else data
  | none => data

end DefaultLayerFactory

/-! ## Material extraction (`MaterialExtractor`) -/

namespace MaterialExtractor

def extractRoughness (material : MaterialInput) : ℝ :=
  match material.roughnessNode with
  | some r => r
  | none =>
      match material.roughness with
      | some r => r
      | none => 0.5

def extractMetalness (material : MaterialInput) : ℝ :=
  match material.metalnessNode with
  | some m => m
  | none =>
      match material.metalness with
      | some m => m
      | none => 0

def extractAO (env : Env) (material : MaterialInput) : ℝ :=
  match material.aoNode with
  | some a => a
  | none =>
      match material.aoMap with
      | some t => (t env.uv).x
      | none => 1

def extractNodes (env : Env) (material : MaterialInput) : LayerData :=
  { color := material.colorNode.getD ⟨1, 1, 1⟩
    normal := material.normalNode.getD ⟨0, 0, 1⟩
    roughness := extractRoughness material
    metalness := extractMetalness material
    ao := extractAO env material
    height := some 0.5 }

def hasTextures (material : MaterialInput) : Bool :=
  material.map.isSome || material.normalMap.isSome ||
    material.roughnessMap.isSome || material.metalnessMap.isSome

/-- `extractAndTransformTextures`: rebuild a texture-backed layer from the
material's maps and delegate to `TextureSampler.sample`. -/
def extractAndTransformTextures (env : Env) (layer : LayerConfig)
    (material : MaterialInput) : Except String LayerData :=
  let textureLayer : LayerConfig :=
    { layer with
        map := some
          { color := material.map.map ColorInput.tex
            normal := material.normalMap
            roughness := material.roughnessMap
            metalness := material.metalnessMap
            ao := material.aoMap
            height := material.displacementMap
            arm := none }
        materialInput := none }
  TextureSampler.sample env textureLayer

/-- `MaterialExtractor.extractFromMaterial`. -/
def extractFromMaterial (env : Env) (layer : LayerConfig)
    (material : MaterialInput) : Except String LayerData :=
  let extracted := extractNodes env material
  if ((layer.materialTransform.map (·.extractTextures)).getD false) && hasTextures material then
    extractAndTransformTextures env layer material
  else
    match layer.edgeWear with
    | some ew =>
        if ew.enable then .ok (EdgeWearCalculator.apply env extracted ew) else .ok extracted
    | none => .ok extracted

end MaterialExtractor

/-! ## Source resolution (`MaterialSampler`) -/

namespace MaterialSampler

/-- `MaterialSampler.sampleLayer`: priority `materialInput` > triplanar >
texture maps > solid defaults. -/
def sampleLayer (env : Env) (layer : LayerConfig) : Except String LayerData :=
  match layer.materialInput with
  | some material => MaterialExtractor.extractFromMaterial env layer material
  | none =>
      let triEnable := (layer.triplanar.map (·.enable)).getD false
      if layer.map.isSome || triEnable then
        if triEnable then TriplanarSampler.sample env layer
        else TextureSampler.sample env layer
      else
        .ok (DefaultLayerFactory.create env layer)

end MaterialSampler

/-! ## Layer blending (`LayerBlender`) -/

namespace LayerBlender

/-- `LayerBlender.calculateBlendFactor`: the source's height-blend hook is a
stub that returns the raw mask unchanged (`return mask; // Simplified`). -/
def calculateBlendFactor (_baseLayer _topLayer : LayerData) (mask : ℝ)
    (_config : LayerConfig) : ℝ :=
  mask

/-- `LayerBlender.blend`: per-channel dispatch to the three blenders with
the layer's configured modes (defaults: color `normal`, normal `rnb`,
scalars `normal`).  A missing top height (`undefined` fed to `mix`) is
modelled as `0`; no claim depends on that corner. -/
def blend (env : Env) (baseLayer topLayer : LayerData) (mask : ℝ)
    (config : LayerConfig) : LayerData :=
  let blendFactor := calculateBlendFactor baseLayer topLayer mask config
  { color := ColorBlender.blend baseLayer.color topLayer.color blendFactor
      ((config.blendMode.bind (·.color)).getD ColorBlendMode.normal)
    normal := NormalBlender.blend env baseLayer.normal topLayer.normal blendFactor
      ((config.blendMode.bind (·.normal)).getD NormalBlendMode.rnb)
    roughness := ScalarBlender.blend baseLayer.roughness topLayer.roughness blendFactor
      ((config.blendMode.bind (·.roughness)).getD ScalarBlendMode.normal)
    metalness := ScalarBlender.blend baseLayer.metalness topLayer.metalness blendFactor
      ((config.blendMode.bind (·.metalness)).getD ScalarBlendMode.normal)
    ao := ScalarBlender.blend baseLayer.ao topLayer.ao blendFactor
      ((config.blendMode.bind (·.ao)).getD ScalarBlendMode.normal)
    height :=
      match baseLayer.height with
      | some hb => some (mixR hb (topLayer.height.getD 0) blendFactor)
      | none => topLayer.height }

end LayerBlender

/-! ## Layer compositing (`LayeredMaterial`) -/

namespace LayeredMaterial

/-- `LayeredMaterial.getDefaultLayer`: the fixed default returned for an
empty layer stack (the source record has no `height` entry). -/
def getDefaultLayer : LayerData :=
  { color := ⟨0.8, 0.8, 0.8⟩
    normal := ⟨0, 0, 1⟩
    roughness := 0.5
    metalness := 0
    ao := 1
    height := none }

/-- `LayeredMaterial.buildLayerBlending` (the spec's `composite`): the empty
stack yields the default layer; otherwise layer 0 is the base sample and each
subsequent layer is resolved, masked, and blended onto the accumulator. -/
def buildLayerBlending (env : Env) (layers : List LayerConfig) :
    Except String LayerData :=
  match layers with
  | [] => .ok getDefaultLayer
  | l0 :: rest => do
      let base ← MaterialSampler.sampleLayer env l0
      rest.foldlM (fun result layer => do
        let layerData ← MaterialSampler.sampleLayer env layer
        let mask := MaskGenerator.generate env layer
        pure (LayerBlender.blend env result layerData mask layer)) base

end LayeredMaterial

/-! ## Shared lemmas -/

lemma saturateR_nonneg (x : ℝ) : 0 ≤ saturateR x :=
  le_min (le_max_right x 0) zero_le_one

lemma saturateR_le_one (x : ℝ) : saturateR x ≤ 1 :=
  min_le_right _ _

lemma saturateR_eq_self {x : ℝ} (h0 : 0 ≤ x) (h1 : x ≤ 1) : saturateR x = x := by
  rw [saturateR, clampR, max_eq_left h0, min_eq_left h1]

lemma mixR_zero (a b : ℝ) : mixR a b 0 = a := by simp [mixR]

lemma mixR_one (a b : ℝ) : mixR a b 1 = b := by simp [mixR]

lemma smoothstepR_mem (e0 e1 x : ℝ) : 0 ≤ smoothstepR e0 e1 x ∧ smoothstepR e0 e1 x ≤ 1 := by
  rw [smoothstepR]
  set t := clampR ((x - e0) / (e1 - e0)) 0 1 with ht
  have h0 : 0 ≤ t := le_min (le_max_right _ _) zero_le_one
  have h1 : t ≤ 1 := min_le_right _ _
  constructor
  · nlinarith
  · nlinarith [sq_nonneg (1 - t), mul_nonneg (mul_nonneg (sub_nonneg.mpr h1) (sub_nonneg.mpr h1)) h0]

lemma voronoiMinDist_nonneg (uv : Vec2) : 0 ≤ NoiseGenerator.voronoiMinDist uv := by
  rw [NoiseGenerator.voronoiMinDist]
  simp only [le_min_iff, Vec2.dot, Vec2.add, Vec2.sub]
  refine ⟨⟨⟨⟨⟨⟨⟨⟨⟨?_, ?_⟩, ?_⟩, ?_⟩, ?_⟩, ?_⟩, ?_⟩, ?_⟩, ?_⟩, ?_⟩ <;>
    first
      | exact add_nonneg (mul_self_nonneg _) (mul_self_nonneg _)
      | norm_num

lemma voronoiNoise_le_one (uv : Vec2) (k : ℕ) : NoiseGenerator.voronoiNoise uv k ≤ 1 := by
  rw [NoiseGenerator.voronoiNoise]
  have := Real.sqrt_nonneg (NoiseGenerator.voronoiMinDist uv)
  linarith

/-! ## Concrete fixtures used by closed statements -/

/-- A concrete sample record. -/
def data0 : LayerData :=
  { color := ⟨1, 0, 0⟩, normal := ⟨0, 0, 1⟩, roughness := 0.4, metalness := 0.1,
    ao := 1, height := some 0.5 }

/-- A concrete constant texture. -/
def texA : Texture := fun _ => ⟨0.5, 0.5, 0.5, 1⟩

/-- A concrete ARM texture (`x→ao 0.1, y→roughness 0.2, z→metalness 0.3`). -/
def armTex : Texture := fun _ => ⟨0.1, 0.2, 0.3, 1⟩

/-- A concrete separate scalar texture, distinct from `armTex`. -/
def sepTex : Texture := fun _ => ⟨0.9, 0.8, 0.7, 1⟩

/-- A map bundle carrying an ARM map alongside separate scalar maps. -/
def armBundle : MapBundle :=
  { arm := some armTex
    roughness := some sepTex
    metalness := some sepTex
    ao := some sepTex }

/-- A layer carrying an ARM map alongside separate scalar maps. -/
def layerARM : LayerConfig := { map := some armBundle }

/-- Replace the separate roughness/metalness/ao maps of a layer's bundle. -/
def withScalarMaps (l : LayerConfig) (ro me ao : Option Texture) : LayerConfig :=
  { l with map := l.map.map fun mb => { mb with roughness := ro, metalness := me, ao := ao } }

/-! ## C1: empty layer stack -/

/-- C1 counterexample: the empty stack composites to the fixed default, but
that default has no `height` entry, not `height = 0.5`. -/
theorem buildLayerBlending_empty_no_height :
    LayeredMaterial.buildLayerBlending Env.default [] = .ok LayeredMaterial.getDefaultLayer ∧
      LayeredMaterial.getDefaultLayer.height ≠ some 0.5 := by
  refine ⟨rfl, ?_⟩
  simp [LayeredMaterial.getDefaultLayer]

/-- C1 (amended): for an empty layer list, `buildLayerBlending` (the spec's
`composite`) returns exactly the fixed default sample with color
`(0.8, 0.8, 0.8)`, normal `(0, 0, 1)`, roughness `0.5`, metalness `0`,
`ao = 1`, and an absent height field. -/
theorem buildLayerBlending_empty_default (env : Env) :
    LayeredMaterial.buildLayerBlending env [] =
      .ok { color := ⟨0.8, 0.8, 0.8⟩, normal := ⟨0, 0, 1⟩, roughness := 0.5,
            metalness := 0, ao := 1, height := none } :=
  rfl

/-! ## C2: height-based blend factor -/

/-- C2 (code evaluated at the failing input): `calculateBlendFactor` returns
the raw mask unchanged for every input — in particular for a layer with
`heightBlend.enable` set whose incoming height (`1`) exceeds the base height
(`0`), where the claim requires a height-sharpened factor. -/
theorem calculateBlendFactor_returns_raw_mask :
    (∀ (b t : LayerData) (m : ℝ) (cfg : LayerConfig),
        LayerBlender.calculateBlendFactor b t m cfg = m) ∧
      LayerBlender.calculateBlendFactor
        { color := ⟨0, 0, 0⟩, normal := ⟨0, 0, 1⟩, roughness := 0, metalness := 0,
          ao := 1, height := some 0 }
        { color := ⟨1, 1, 1⟩, normal := ⟨0, 0, 1⟩, roughness := 1, metalness := 0,
          ao := 1, height := some 1 }
        (1/2)
        { heightBlend := some { enable := true, strength := some 3, sharpness := some 2 } } =
        1/2 :=
  ⟨fun _ _ _ _ => rfl, rfl⟩

/-! ## C5: scalar blend endpoint identities -/

/-- C5 counterexample: for out-of-range scalar input `a = 2`, the non-normal
modes saturate, so `blend(a, b, 0, min) ≠ a`. -/
theorem scalarBlend_factor_zero_not_identity :
    ScalarBlender.blend 2 0 0 ScalarBlendMode.min ≠ 2 := by
  simp only [ScalarBlender.blend, ScalarBlender.blendedValue, mixR, saturateR, clampR]
  norm_num

/-- C5 (amended): for scalar inputs in `[0,1]`, `blend(a,b,0,mode) = a` for
every scalar mode, and at factor `1`: `normal` yields `b`, `max` yields
`max a b`, `min` yields `min a b`, `multiply` yields `a·b`. -/
theorem scalarBlend_endpoint_identities (a b : ℝ) (ha0 : 0 ≤ a) (ha1 : a ≤ 1)
    (hb0 : 0 ≤ b) (hb1 : b ≤ 1) :
    (∀ mode, ScalarBlender.blend a b 0 mode = a) ∧
      ScalarBlender.blend a b 1 ScalarBlendMode.normal = b ∧
      ScalarBlender.blend a b 1 ScalarBlendMode.max = max a b ∧
      ScalarBlender.blend a b 1 ScalarBlendMode.min = min a b ∧
      ScalarBlender.blend a b 1 ScalarBlendMode.multiply = a * b := by
  refine ⟨fun mode => ?_, ?_, ?_, ?_, ?_⟩
  · cases mode <;>
      simp only [ScalarBlender.blend, mixR_zero] <;>
      exact saturateR_eq_self ha0 ha1
  · simp [ScalarBlender.blend, mixR_one]
  · simp only [ScalarBlender.blend, ScalarBlender.blendedValue, mixR_one]
    exact saturateR_eq_self (le_max_of_le_left ha0) (max_le ha1 hb1)
  · simp only [ScalarBlender.blend, ScalarBlender.blendedValue, mixR_one]
    exact saturateR_eq_self (le_min ha0 hb0) (min_le_of_left_le ha1)
  · simp only [ScalarBlender.blend, ScalarBlender.blendedValue, mixR_one]
    exact saturateR_eq_self (mul_nonneg ha0 hb0) (mul_le_one₀ ha1 hb0 hb1)

/-- C5 witness: the amended identities evaluated at `a = 1/2`, `b = 1/3`. -/
theorem scalarBlend_endpoint_identities_witness :
    ScalarBlender.blend (1/2) (1/3) 0 ScalarBlendMode.min = 1/2 ∧
      ScalarBlender.blend (1/2) (1/3) 1 ScalarBlendMode.multiply = 1/2 * (1/3) := by
  have h := scalarBlend_endpoint_identities (1/2) (1/3) (by norm_num) (by norm_num)
    (by norm_num) (by norm_num)
  exact ⟨h.1 ScalarBlendMode.min, h.2.2.2.2⟩

/-! ## C10: edge wear only rewrites color (and optionally the PBR scalars) -/

/-- C10: `EdgeWearCalculator.apply` leaves normal, ao, and height unchanged
for every input and configuration; when `affectsMaterial` is not set it also
leaves roughness and metalness unchanged, modifying only the color. -/
theorem edgeWear_apply_preserves_fields (env : Env) (data : LayerData)
    (config : EdgeWearConfig) :
    (EdgeWearCalculator.apply env data config).normal = data.normal ∧
      (EdgeWearCalculator.apply env data config).ao = data.ao ∧
      (EdgeWearCalculator.apply env data config).height = data.height ∧
      (config.affectsMaterial = false →
        (EdgeWearCalculator.apply env data config).roughness = data.roughness ∧
          (EdgeWearCalculator.apply env data config).metalness = data.metalness) := by
  rw [EdgeWearCalculator.apply]
  by_cases h : config.affectsMaterial <;> simp [h]

/-- C10 witness: the preservation facts evaluated at a concrete sample and
the empty (hence `affectsMaterial = false`) configuration. -/
theorem edgeWear_apply_preserves_fields_witness :
    (EdgeWearCalculator.apply Env.default data0 {}).normal = data0.normal ∧
      (EdgeWearCalculator.apply Env.default data0 {}).roughness = data0.roughness ∧
      (EdgeWearCalculator.apply Env.default data0 {}).metalness = data0.metalness := by
  have h := edgeWear_apply_preserves_fields Env.default data0 {}
  exact ⟨h.1, (h.2.2.2 rfl).1, (h.2.2.2 rfl).2⟩

/-! ## C9: texture sampler error behavior -/

/-- A parallax-enabled layer with a height map (resolves without error). -/
def layerParallax : LayerConfig :=
  { map := some { height := some texA }, parallax := some { enable := true } }

/-- C9: `TextureSampler.sample` raises exactly the descriptive error naming
the missing requirement when `layer.map` is absent, and raises if and only
if it is absent: for every layer with a map bundle (parallax, bombing, edge
wear included) it returns a resolved sample — the error is neither retried
nor replaced by a default. -/
theorem textureSampler_raises_iff_no_map (env : Env) (layer : LayerConfig) :
    (layer.map = none →
      TextureSampler.sample env layer = .error "TextureSampler requires layer.map to be defined") ∧
      (layer.map ≠ none → ∃ d, TextureSampler.sample env layer = .ok d) := by
  cases hmap : layer.map with
  | none =>
    refine ⟨fun _ => ?_, fun hne => absurd rfl hne⟩
    simp [TextureSampler.sample, hmap]
  | some mb =>
    refine ⟨fun h => by simp at h, fun _ => ?_⟩
    simp only [TextureSampler.sample, hmap]
    split
    · split
      · exact ⟨_, rfl⟩
      · exact ⟨_, rfl⟩
    · exact ⟨_, rfl⟩

/-- C9 witness: the descriptive error at the empty layer, and error-free
resolution for a layer with maps and for a parallax-enabled layer with a
height map. -/
theorem textureSampler_raises_iff_no_map_witness :
    TextureSampler.sample Env.default {} =
        .error "TextureSampler requires layer.map to be defined" ∧
      (∃ d, TextureSampler.sample Env.default layerARM = .ok d) ∧
      (∃ d, TextureSampler.sample Env.default layerParallax = .ok d) :=
  ⟨(textureSampler_raises_iff_no_map Env.default {}).1 rfl,
    (textureSampler_raises_iff_no_map Env.default layerARM).2 (by simp [layerARM]),
    (textureSampler_raises_iff_no_map Env.default layerParallax).2 (by simp [layerParallax])⟩

/-! ## C8: triplanar blend-weight partition -/

/-- Auxiliary partition fact for epsilon-padded weight normalization. -/
lemma weight_partition_aux {A B C : ℝ} (hA : 0 ≤ A) (hB : 0 ≤ B) (hC : 0 ≤ C)
    (h1 : 1 ≤ A + B + C) :
    0 ≤ A / (A + B + C + 1e-6) ∧ 0 ≤ B / (A + B + C + 1e-6) ∧
      0 ≤ C / (A + B + C + 1e-6) ∧
      |A / (A + B + C + 1e-6) + B / (A + B + C + 1e-6) + C / (A + B + C + 1e-6) - 1| ≤ 1e-6 := by
  have hS : (0:ℝ) < A + B + C + 1e-6 := by linarith
  refine ⟨div_nonneg hA hS.le, div_nonneg hB hS.le, div_nonneg hC hS.le, ?_⟩
  rw [div_add_div_same, div_add_div_same]
  have heq : (A + B + C) / (A + B + C + 1e-6) - 1 = -(1e-6 / (A + B + C + 1e-6)) := by
    field_simp
  rw [heq, abs_neg, abs_of_nonneg (by positivity)]
  rw [div_le_iff₀ hS]
  nlinarith

/-- Squared length is positive for a nonzero vector. -/
lemma sum_mul_self_pos {x y z : ℝ} (h : ¬(x = 0 ∧ y = 0 ∧ z = 0)) :
    0 < x * x + y * y + z * z := by
  rcases lt_trichotomy (x * x + y * y + z * z) 0 with hneg | hzero | hpos
  · nlinarith [mul_self_nonneg x, mul_self_nonneg y, mul_self_nonneg z]
  · exfalso
    apply h
    refine ⟨?_, ?_, ?_⟩ <;>
      nlinarith [mul_self_nonneg x, mul_self_nonneg y, mul_self_nonneg z]
  · exact hpos

/-- C8: for any nonzero normal the three triplanar weights are nonnegative
and sum to `1` within the padding epsilon `1e-6`. -/
theorem triplanar_blend_weights_partition (n : Vec3) (h : n ≠ ⟨0, 0, 0⟩) :
    0 ≤ (TriplanarSampler.calculateBlendWeights n).x ∧
      0 ≤ (TriplanarSampler.calculateBlendWeights n).y ∧
      0 ≤ (TriplanarSampler.calculateBlendWeights n).z ∧
      |(TriplanarSampler.calculateBlendWeights n).x + (TriplanarSampler.calculateBlendWeights n).y +
        (TriplanarSampler.calculateBlendWeights n).z - 1| ≤ 1e-6 := by
  obtain ⟨x, y, z⟩ := n
  have hne : ¬(x = 0 ∧ y = 0 ∧ z = 0) := by
    intro hc
    exact h (by simp [hc.1, hc.2.1, hc.2.2])
  have hd : 0 < x * x + y * y + z * z := sum_mul_self_pos hne
  simp only [TriplanarSampler.calculateBlendWeights, Vec3.normalize, Vec3.length, Vec3.dot,
    Vec3.absV, Vec3.divS, abs_mul_abs_self]
  have hR : 0 < Real.sqrt (x * x + y * y + z * z) := Real.sqrt_pos.mpr hd
  have hsum : 1 ≤ |x| / Real.sqrt (x * x + y * y + z * z) +
      |y| / Real.sqrt (x * x + y * y + z * z) + |z| / Real.sqrt (x * x + y * y + z * z) := by
    rw [div_add_div_same, div_add_div_same, le_div_iff₀ hR, one_mul]
    have habs : x * x + y * y + z * z ≤ (|x| + |y| + |z|) * (|x| + |y| + |z|) := by
      nlinarith [abs_mul_abs_self x, abs_mul_abs_self y, abs_mul_abs_self z,
        mul_nonneg (abs_nonneg x) (abs_nonneg y), mul_nonneg (abs_nonneg x) (abs_nonneg z),
        mul_nonneg (abs_nonneg y) (abs_nonneg z)]
    calc Real.sqrt (x * x + y * y + z * z)
        ≤ Real.sqrt ((|x| + |y| + |z|) * (|x| + |y| + |z|)) := Real.sqrt_le_sqrt habs
      _ = |x| + |y| + |z| := Real.sqrt_mul_self (by positivity)
  exact weight_partition_aux (by positivity) (by positivity) (by positivity) hsum

/-- C8 witness: the partition facts evaluated at the unit normal `(0,0,1)`. -/
theorem triplanar_blend_weights_partition_witness :
    ((⟨0, 0, 1⟩ : Vec3) ≠ ⟨0, 0, 0⟩) ∧
      0 ≤ (TriplanarSampler.calculateBlendWeights ⟨0, 0, 1⟩).x ∧
      |(TriplanarSampler.calculateBlendWeights ⟨0, 0, 1⟩).x +
        (TriplanarSampler.calculateBlendWeights ⟨0, 0, 1⟩).y +
        (TriplanarSampler.calculateBlendWeights ⟨0, 0, 1⟩).z - 1| ≤ 1e-6 := by
  have hne : (⟨0, 0, 1⟩ : Vec3) ≠ ⟨0, 0, 0⟩ := by
    simp [Vec3.mk.injEq]
  have h := triplanar_blend_weights_partition ⟨0, 0, 1⟩ hne
  exact ⟨hne, h.1, h.2.2.2⟩

/-! ## C3: mask generator range and neutrality -/

/-- C3: every mask value lies in `[0,1]`; an absent mask yields exactly `1`;
a mask object with no sub-condition configured yields exactly `1`; and with
`invert` set the result is `1` minus the accumulated mask, clamped. -/
theorem mask_generate_props (env : Env) (layer : LayerConfig) :
    (0 ≤ MaskGenerator.generate env layer ∧ MaskGenerator.generate env layer ≤ 1) ∧
      (layer.mask = none → MaskGenerator.generate env layer = 1) ∧
      (∀ m : MaskConfig, layer.mask = some m → m.map = none → m.useSlope = false →
        m.useHeight = false → m.useNoise = false → m.invert = false →
        MaskGenerator.generate env layer = 1) ∧
      (∀ m : MaskConfig, layer.mask = some m → m.invert = true →
        MaskGenerator.generate env layer = saturateR (1 - MaskGenerator.accum env m)) := by
  refine ⟨?_, ?_, ?_, ?_⟩
  · rw [MaskGenerator.generate]
    cases layer.mask with
    | none => norm_num
    | some m => exact ⟨saturateR_nonneg _, saturateR_le_one _⟩
  · intro hm
    rw [MaskGenerator.generate, hm]
  · intro m hm h1 h2 h3 h4 h5
    have hacc : MaskGenerator.accum env m = 1 := by
      simp [MaskGenerator.accum, h1, h2, h3, h4]
    rw [MaskGenerator.generate, hm]
    simp [h5, hacc, saturateR, clampR]
  · intro m hm hinv
    rw [MaskGenerator.generate, hm]
    simp [hinv]

/-- C3 witness: the neutrality facts at a layer with no mask and at a layer
with an all-default mask object. -/
theorem mask_generate_props_witness :
    MaskGenerator.generate Env.default {} = 1 ∧
      MaskGenerator.generate Env.default { mask := some {} } = 1 := by
  refine ⟨(mask_generate_props Env.default {}).2.1 rfl, ?_⟩
  exact (mask_generate_props Env.default { mask := some {} }).2.2.1 {} rfl rfl rfl rfl rfl rfl

/-! ## C7: ARM packed-map priority -/

/-- C7: when a layer's bundle carries an ARM map, the resolved PBR scalars
come from the ARM sample with unpacking `x→ao, y→roughness, z→metalness`,
and replacing the separate roughness/metalness/ao maps changes nothing — in
both planar and triplanar sampling, with and without texture bombing. -/
theorem arm_map_priority (layer : LayerConfig) (uvC uvX uvY uvZ : Vec2) (bw : Vec3)
    (useB : Bool) (bb : ℝ) (t : Texture) (h : layer.map.bind (·.arm) = some t) :
    TextureSampler.samplePBRProperties layer uvC useB bb =
      ⟨(if useB then TextureBombing.sample t uvC bb else t uvC).y,
        (if useB then TextureBombing.sample t uvC bb else t uvC).z,
        (if useB then TextureBombing.sample t uvC bb else t uvC).x⟩ ∧
      (∀ ro me ao : Option Texture,
        TextureSampler.samplePBRProperties (withScalarMaps layer ro me ao) uvC useB bb =
          TextureSampler.samplePBRProperties layer uvC useB bb) ∧
      TriplanarSampler.sampleTriplanarPBR layer uvX uvY uvZ bw useB bb =
        ⟨((((if useB then TextureBombing.sample t uvX bb else t uvX).smul bw.x).add
            ((if useB then TextureBombing.sample t uvY bb else t uvY).smul bw.y)).add
            ((if useB then TextureBombing.sample t uvZ bb else t uvZ).smul bw.z)).y,
          ((((if useB then TextureBombing.sample t uvX bb else t uvX).smul bw.x).add
            ((if useB then TextureBombing.sample t uvY bb else t uvY).smul bw.y)).add
            ((if useB then TextureBombing.sample t uvZ bb else t uvZ).smul bw.z)).z,
          ((((if useB then TextureBombing.sample t uvX bb else t uvX).smul bw.x).add
            ((if useB then TextureBombing.sample t uvY bb else t uvY).smul bw.y)).add
            ((if useB then TextureBombing.sample t uvZ bb else t uvZ).smul bw.z)).x⟩ ∧
      (∀ ro me ao : Option Texture,
        TriplanarSampler.sampleTriplanarPBR (withScalarMaps layer ro me ao) uvX uvY uvZ bw
            useB bb =
          TriplanarSampler.sampleTriplanarPBR layer uvX uvY uvZ bw useB bb) := by
  cases hmap : layer.map with
  | none => rw [hmap] at h; simp at h
  | some mb =>
    have harm : mb.arm = some t := by
      rw [hmap] at h
      simpa using h
    refine ⟨?_, ?_, ?_, ?_⟩
    · rw [TextureSampler.samplePBRProperties, hmap]
      simp [harm]
    · intro ro me ao
      rw [TextureSampler.samplePBRProperties, TextureSampler.samplePBRProperties,
        withScalarMaps, hmap]
      simp [harm]
    · rw [TriplanarSampler.sampleTriplanarPBR, hmap]
      simp [harm]
    · intro ro me ao
      rw [TriplanarSampler.sampleTriplanarPBR, TriplanarSampler.sampleTriplanarPBR,
        withScalarMaps, hmap]
      simp [harm]

/-- C7 witness: planar resolution of the concrete ARM layer yields the ARM
channels `(roughness, metalness, ao) = (0.2, 0.3, 0.1)`, ignoring the
separate `0.9/0.8/0.7` maps. -/
theorem arm_map_priority_witness :
    TextureSampler.samplePBRProperties layerARM ⟨0, 0⟩ false (1/2) =
      ⟨0.2, 0.3, 0.1⟩ := by
  have h := arm_map_priority layerARM ⟨0, 0⟩ ⟨0, 0⟩ ⟨0, 0⟩ ⟨0, 0⟩ ⟨1, 0, 0⟩ false (1/2)
    armTex rfl
  rw [h.1]
  simp [armTex]

/-! ## C6: noise engine range -/

lemma hash_54_73 : (NoiseGenerator.hash2D ⟨54, 73⟩).x = 2541984123/15625000000 ∧
    (NoiseGenerator.hash2D ⟨54, 73⟩).y = 2541984123/15625000000 := by
  constructor <;>
    · simp only [NoiseGenerator.hash2D, Vec3.fractV, Vec3.dot, Vec3.add, fractR]
      norm_num [Int.fract]

lemma hash_55_73 : (NoiseGenerator.hash2D ⟨55, 73⟩).x = 9303037/1600000000 ∧
    (NoiseGenerator.hash2D ⟨55, 73⟩).y = 9303037/1600000000 := by
  constructor <;>
    · simp only [NoiseGenerator.hash2D, Vec3.fractV, Vec3.dot, Vec3.add, fractR]
      norm_num [Int.fract]

lemma hash_56_73 : (NoiseGenerator.hash2D ⟨56, 73⟩).x = 18278544833/62500000000 ∧
    (NoiseGenerator.hash2D ⟨56, 73⟩).y = 18278544833/62500000000 := by
  constructor <;>
    · simp only [NoiseGenerator.hash2D, Vec3.fractV, Vec3.dot, Vec3.add, fractR]
      norm_num [Int.fract]

lemma hash_54_74 : (NoiseGenerator.hash2D ⟨54, 74⟩).x = 947587429/125000000000 ∧
    (NoiseGenerator.hash2D ⟨54, 74⟩).y = 947587429/125000000000 := by
  constructor <;>
    · simp only [NoiseGenerator.hash2D, Vec3.fractV, Vec3.dot, Vec3.add, fractR]
      norm_num [Int.fract]

lemma hash_55_74 : (NoiseGenerator.hash2D ⟨55, 74⟩).x = 1517049663/1600000000 ∧
    (NoiseGenerator.hash2D ⟨55, 74⟩).y = 1517049663/1600000000 := by
  constructor <;>
    · simp only [NoiseGenerator.hash2D, Vec3.fractV, Vec3.dot, Vec3.add, fractR]
      norm_num [Int.fract]

lemma hash_56_74 : (NoiseGenerator.hash2D ⟨56, 74⟩).x = 5290140867/15625000000 ∧
    (NoiseGenerator.hash2D ⟨56, 74⟩).y = 5290140867/15625000000 := by
  constructor <;>
    · simp only [NoiseGenerator.hash2D, Vec3.fractV, Vec3.dot, Vec3.add, fractR]
      norm_num [Int.fract]

lemma hash_54_75 : (NoiseGenerator.hash2D ⟨54, 75⟩).x = 36068941487/62500000000 ∧
    (NoiseGenerator.hash2D ⟨54, 75⟩).y = 36068941487/62500000000 := by
  constructor <;>
    · simp only [NoiseGenerator.hash2D, Vec3.fractV, Vec3.dot, Vec3.add, fractR]
      norm_num [Int.fract]

lemma hash_55_75 : (NoiseGenerator.hash2D ⟨55, 75⟩).x = 4955027333/8000000000 ∧
    (NoiseGenerator.hash2D ⟨55, 75⟩).y = 4955027333/8000000000 := by
  constructor <;>
    · simp only [NoiseGenerator.hash2D, Vec3.fractV, Vec3.dot, Vec3.add, fractR]
      norm_num [Int.fract]

lemma hash_56_75 : (NoiseGenerator.hash2D ⟨56, 75⟩).x = 7363383553/62500000000 ∧
    (NoiseGenerator.hash2D ⟨56, 75⟩).y = 7363383553/62500000000 := by
  constructor <;>
    · simp only [NoiseGenerator.hash2D, Vec3.fractV, Vec3.dot, Vec3.add, fractR]
      norm_num [Int.fract]

lemma hash_113_104 : (NoiseGenerator.hash2D ⟨113, 104⟩).x = 506907779501/1000000000000 := by
  simp only [NoiseGenerator.hash2D, Vec3.fractV, Vec3.dot, Vec3.add, fractR]
  norm_num [Int.fract]

lemma hash_114_104 : (NoiseGenerator.hash2D ⟨114, 104⟩).x = 7502587709/125000000000 := by
  simp only [NoiseGenerator.hash2D, Vec3.fractV, Vec3.dot, Vec3.add, fractR]
  norm_num [Int.fract]

lemma hash_113_105 : (NoiseGenerator.hash2D ⟨113, 105⟩).x = 65107029791/1000000000000 := by
  simp only [NoiseGenerator.hash2D, Vec3.fractV, Vec3.dot, Vec3.add, fractR]
  norm_num [Int.fract]

lemma hash_114_105 : (NoiseGenerator.hash2D ⟨114, 105⟩).x = 62332357677/62500000000 := by
  simp only [NoiseGenerator.hash2D, Vec3.fractV, Vec3.dot, Vec3.add, fractR]
  norm_num [Int.fract]

/-- At `(55.125, 74.125)` all nine jittered cell points are farther than
distance `1`, so the squared minimum exceeds `1`. -/
lemma voronoiMinDist_at_counterexample :
    1 < NoiseGenerator.voronoiMinDist ⟨55.125, 74.125⟩ := by
  simp only [NoiseGenerator.voronoiMinDist, Vec2.floorV, Vec2.fractV, Vec2.add, Vec2.sub,
    Vec2.dot, fractR, lt_min_iff]
  norm_num [Int.fract, hash_54_73.1, hash_54_73.2, hash_55_73.1, hash_55_73.2,
    hash_56_73.1, hash_56_73.2, hash_54_74.1, hash_54_74.2, hash_55_74.1, hash_55_74.2,
    hash_56_74.1, hash_56_74.2, hash_54_75.1, hash_54_75.2, hash_55_75.1, hash_55_75.2,
    hash_56_75.1, hash_56_75.2]

/-- The single perlin octave at `(113.625, 104.625)` evaluates above `1`
(the source's fade curve is `f·f·(f·(6f−15)+10)`, which overshoots). -/
lemma perlinOctave_at_counterexample :
    NoiseGenerator.perlinOctave ⟨113.625, 104.625⟩ =
      2791260548928030027/2097152000000000000 := by
  rw [NoiseGenerator.perlinOctave]
  simp only [Vec2.floorV, Vec2.fractV, Vec2.add, fractR, mixR]
  norm_num [Int.fract, hash_113_104, hash_114_104, hash_113_105, hash_114_105]

/-- C6 counterexample: the Voronoi variant goes below `0` at
`(55.125, 74.125)` and the (default) perlin variant exceeds `1` at
`(113.625, 104.625)` — `generate` does not stay in `[0,1]`. -/
theorem noise_generate_out_of_range :
    NoiseGenerator.generate ⟨55.125, 74.125⟩
        { useNoise := true, noiseType := some NoiseType.voronoi } < 0 ∧
      1 < NoiseGenerator.generate ⟨113.625, 104.625⟩
        { useNoise := true, noiseType := some NoiseType.perlin } := by
  constructor
  · have hgen : NoiseGenerator.generate ⟨55.125, 74.125⟩
        { useNoise := true, noiseType := some NoiseType.voronoi } =
        NoiseGenerator.voronoiNoise ⟨55.125, 74.125⟩ 1 := by
      simp [NoiseGenerator.generate, orFalsyR, orFalsyN, Vec2.smul]
    rw [hgen, NoiseGenerator.voronoiNoise]
    have hsq : 1 < Real.sqrt (NoiseGenerator.voronoiMinDist ⟨55.125, 74.125⟩) := by
      rw [show (1:ℝ) = Real.sqrt 1 from Real.sqrt_one.symm]
      exact Real.sqrt_lt_sqrt (by norm_num) voronoiMinDist_at_counterexample
    linarith
  · have hgen : NoiseGenerator.generate ⟨113.625, 104.625⟩
        { useNoise := true, noiseType := some NoiseType.perlin } =
        NoiseGenerator.perlinNoise ⟨113.625, 104.625⟩ 1 := by
      simp [NoiseGenerator.generate, orFalsyR, orFalsyN, Vec2.smul]
    have h1 : NoiseGenerator.perlinNoise ⟨113.625, 104.625⟩ 1 =
        NoiseGenerator.perlinOctave ⟨113.625, 104.625⟩ := by
      simp [NoiseGenerator.perlinNoise]
    rw [hgen, h1, perlinOctave_at_counterexample]
    norm_num

/-- C6 (amended): `generate` returns exactly `1` when noise is disabled;
whenever a threshold is configured the smooth step clamps the output to
`[0,1]`; and the Voronoi variant never exceeds `1` (though it can be
negative). -/
theorem noise_generate_clauses (uv : Vec2) (cfg : NoiseConfig) :
    (cfg.useNoise = false → NoiseGenerator.generate uv cfg = 1) ∧
      (∀ th : ℝ, cfg.noiseThreshold = some th →
        0 ≤ NoiseGenerator.generate uv cfg ∧ NoiseGenerator.generate uv cfg ≤ 1) ∧
      (cfg.noiseType = some NoiseType.voronoi → NoiseGenerator.generate uv cfg ≤ 1) := by
  refine ⟨?_, ?_, ?_⟩
  · intro h
    rw [NoiseGenerator.generate, if_pos h]
  · intro th hth
    rw [NoiseGenerator.generate]
    split
    · norm_num
    · simp only [hth]
      exact smoothstepR_mem _ _ _
  · intro hty
    rw [NoiseGenerator.generate]
    split
    · norm_num
    · simp only [hty]
      cases hth : cfg.noiseThreshold with
      | some th => exact (smoothstepR_mem _ _ _).2
      | none => exact voronoiNoise_le_one _ _

/-- C6 witness: the amended clauses evaluated at concrete configurations. -/
theorem noise_generate_clauses_witness :
    NoiseGenerator.generate ⟨0, 0⟩ {} = 1 ∧
      (0 ≤ NoiseGenerator.generate ⟨0, 0⟩ { useNoise := true, noiseThreshold := some 0.5 } ∧
        NoiseGenerator.generate ⟨0, 0⟩ { useNoise := true, noiseThreshold := some 0.5 } ≤ 1) ∧
      NoiseGenerator.generate ⟨0, 0⟩
        { useNoise := true, noiseType := some NoiseType.voronoi } ≤ 1 :=
  ⟨(noise_generate_clauses ⟨0, 0⟩ {}).1 rfl,
    (noise_generate_clauses ⟨0, 0⟩ _).2.1 0.5 rfl,
    (noise_generate_clauses ⟨0, 0⟩ _).2.2 rfl⟩

/-! ## C4: normal blending output length -/

/-- A nonzero vector normalizes to unit length. -/
lemma length_normalize_of_ne {v : Vec3} (h : v ≠ ⟨0, 0, 0⟩) :
    Vec3.length (Vec3.normalize v) = 1 := by
  obtain ⟨x, y, z⟩ := v
  have hne : ¬(x = 0 ∧ y = 0 ∧ z = 0) := by
    intro hc
    exact h (by simp [hc.1, hc.2.1, hc.2.2])
  have hd : 0 < x * x + y * y + z * z := sum_mul_self_pos hne
  have hR : 0 < Real.sqrt (x * x + y * y + z * z) := Real.sqrt_pos.mpr hd
  have hRR : Real.sqrt (x * x + y * y + z * z) * Real.sqrt (x * x + y * y + z * z) =
      x * x + y * y + z * z := Real.mul_self_sqrt hd.le
  simp only [Vec3.normalize, Vec3.length, Vec3.dot, Vec3.divS]
  have h2 : x / Real.sqrt (x * x + y * y + z * z) * (x / Real.sqrt (x * x + y * y + z * z)) +
      y / Real.sqrt (x * x + y * y + z * z) * (y / Real.sqrt (x * x + y * y + z * z)) +
      z / Real.sqrt (x * x + y * y + z * z) * (z / Real.sqrt (x * x + y * y + z * z)) = 1 := by
    field_simp
  rw [h2, Real.sqrt_one]

/-- C4 counterexample: `linear` blending of the opposite unit normals
`(0,0,1)` and `(0,0,-1)` at factor `1/2` produces the zero vector, whose
"renormalization" has length `0`, not `1` (beyond any `1e-4` tolerance). -/
theorem normalBlend_zero_output :
    NormalBlender.blend Env.default ⟨0, 0, 1⟩ ⟨0, 0, -1⟩ (1/2) NormalBlendMode.linear =
      ⟨0, 0, 0⟩ ∧
      1e-4 < |Vec3.length (NormalBlender.blend Env.default ⟨0, 0, 1⟩ ⟨0, 0, -1⟩ (1/2)
        NormalBlendMode.linear) - 1| := by
  have hraw : NormalBlender.blendRaw Env.default ⟨0, 0, 1⟩ ⟨0, 0, -1⟩ (1/2)
      NormalBlendMode.linear = ⟨0, 0, 0⟩ := by
    simp only [NormalBlender.blendRaw, NormalBlender.linearBlend, Vec3.mixV, mixR]
    norm_num
  have hblend : NormalBlender.blend Env.default ⟨0, 0, 1⟩ ⟨0, 0, -1⟩ (1/2)
      NormalBlendMode.linear = ⟨0, 0, 0⟩ := by
    rw [NormalBlender.blend, hraw]
    simp [Vec3.normalize, Vec3.divS, Vec3.length, Vec3.dot]
  refine ⟨hblend, ?_⟩
  rw [hblend]
  norm_num [Vec3.length, Vec3.dot]

/-- C4 (amended): whenever the mode-dispatched blended vector is nonzero,
the final renormalization makes the output exactly unit length — for all six
modes, all inputs, and every blend factor. -/
theorem normalBlend_unit_length (env : Env) (n1 n2 : Vec3) (f : ℝ)
    (mode : NormalBlendMode) (h : NormalBlender.blendRaw env n1 n2 f mode ≠ ⟨0, 0, 0⟩) :
    Vec3.length (NormalBlender.blend env n1 n2 f mode) = 1 :=
  length_normalize_of_ne h

/-- C4 witness: the unit-length fact evaluated for `linear` mode at factor
`0` on the flat normal. -/
theorem normalBlend_unit_length_witness :
    NormalBlender.blendRaw Env.default ⟨0, 0, 1⟩ ⟨0, 0, 1⟩ 0 NormalBlendMode.linear ≠
        ⟨0, 0, 0⟩ ∧
      Vec3.length (NormalBlender.blend Env.default ⟨0, 0, 1⟩ ⟨0, 0, 1⟩ 0
        NormalBlendMode.linear) = 1 := by
  have hraw : NormalBlender.blendRaw Env.default ⟨0, 0, 1⟩ ⟨0, 0, 1⟩ 0
      NormalBlendMode.linear = ⟨0, 0, 1⟩ := by
    simp [NormalBlender.blendRaw, NormalBlender.linearBlend, Vec3.mixV, mixR]
  constructor
  · rw [hraw]
    simp [Vec3.mk.injEq]
  · exact normalBlend_unit_length Env.default ⟨0, 0, 1⟩ ⟨0, 0, 1⟩ 0 NormalBlendMode.linear
      (by rw [hraw]; simp [Vec3.mk.injEq])

end LayeredMaterialModel
